import Mathlib

/-!
Verification development for the timed instruction playback logic and the
real-time WebSocket transport logic of the voice-for-everyone frontend.

The definitions below are a shallow embedding of the TypeScript source:

* `PlayerState` / `tick` / `handlePlayPause` / `handleReplay` /
  `loadInstructions` embed the per-step progress-and-timing effect of
  `SimpleHumanVideo.tsx` (lines 288-316) together with its control handlers
  (lines 318-327), the initial component state (lines 212-217), and the
  instructions-reset effect of `RealHumanBodyAnimation.tsx` (lines 60-66).
  The per-step timeout effect of `RealHumanBodyAnimation.tsx` (lines 670-701)
  has the same step structure (fresh `startTime`, per-step progress, advance
  with `setProgress(0)`, stop and `onComplete` on the last step).
* `IntervalState` / `intervalTick` embed the interval-based progress effect of
  `RealHumanBodyAnimation.tsx` (lines 69-110).
* `Json` / `jsonParse` model the JavaScript `JSON.parse` boundary used by
  `ws.onmessage` in `RealTimeTranslation.tsx`.
* `TransportState` and the `connectWebSocket` / `wsOnOpen` / `wsOnError` /
  `wsOnClose` / `handleWebSocketMessage` / `addMessage` / `sendTextInput`
  functions embed the WebSocket component `RealTimeTranslation.tsx`.
* `gestureAnimations` / `findBestAnimation` embed the gesture lookup of
  `SimpleHumanVideo.tsx` (lines 34-126 and 222-270).

Wall-clock quantities (durations in seconds, elapsed times) are modelled as
exact rationals; the source uses JavaScript numbers, and no property below
depends on floating-point rounding.
-/

/-! ### Character and string helpers

`asciiLower`/`lowerStr` embed JavaScript `String.prototype.toLowerCase` for the
ASCII strings appearing in the gesture table; `hasSub` embeds
`String.prototype.includes`; `trimChars` embeds `String.prototype.trim` for the
common whitespace characters. They are written over `List Char` so that they
evaluate inside the kernel. -/

def asciiLower (c : Char) : Char :=
  if 65 ≤ c.toNat ∧ c.toNat ≤ 90 then Char.ofNat (c.toNat + 32) else c

def lowerStr (s : String) : List Char := s.data.map asciiLower

def leadsWith : List Char → List Char → Bool
  | [], _ => true
  | _ :: _, [] => false
  | p :: ps, c :: cs => p == c && leadsWith ps cs

def hasSub (s pat : List Char) : Bool :=
  match s with
  | [] => leadsWith pat []
  | _ :: rest => leadsWith pat s || hasSub rest pat

def isJsWhitespace (c : Char) : Bool :=
  c == ' ' || c == '\t' || c == '\n' || c == '\r'

def trimChars (cs : List Char) : List Char :=
  ((cs.dropWhile isJsWhitespace).reverse.dropWhile isJsWhitespace).reverse

/-! ### Instruction model

`BodyLanguageInstruction` is the interface declared identically in
`SimpleHumanVideo.tsx` (lines 21-27) and `RealHumanBodyAnimation.tsx`
(lines 24-30). -/

structure BodyLanguageInstruction where
  gesture_type : String := ""
  description : String := ""
  duration : ℚ
  intensity : ℚ := 1
  sequence_order : ℕ := 0
  deriving Repr, DecidableEq

/-! ### Per-step playback model (`SimpleHumanVideo.tsx`)

`PlayerState` collects the component state driving playback: `currentStep`,
`isPlaying`, `progress` (the React state, a percentage) from lines 212-215,
plus two quantities implicit in the effect of lines 288-316: `elapsedInStep`
is `Date.now() - startTime` for the current run of the progress effect (the
effect re-runs, taking a fresh `startTime`, whenever `currentStep` or
`isPlaying` changes), and `completeCount` counts the `onComplete?.()` calls.
The loaded `instructions` array is carried in the state so that the
instructions-reset effect can be expressed as a state operation. -/

structure PlayerState where
  instructions : List BodyLanguageInstruction
  currentStep : ℕ
  elapsedInStep : ℚ
  progress : ℚ
  isPlaying : Bool
  completeCount : ℕ
  deriving Repr, DecidableEq

/-- Initial component state: `useState(0)`, `useState(true)`, `useState(0)`
(`SimpleHumanVideo.tsx` lines 212-215), with the instructions prop. -/
def initialPlayer (instrs : List BodyLanguageInstruction) : PlayerState :=
  { instructions := instrs
    currentStep := 0
    elapsedInStep := 0
    progress := 0
    isPlaying := true
    completeCount := 0 }

/-- One firing of the 50 ms interval of the progress effect
(`SimpleHumanVideo.tsx` lines 288-316), `δ` seconds of wall clock after the
previous firing (or after the effect's `startTime` for the first firing).
The effect runs only when `isPlaying && currentStep < instructions.length`;
it computes `elapsed = Date.now() - startTime`,
`newProgress = Math.min((elapsed / duration) * 100, 100)`, stores it with
`setProgress`, and when `newProgress >= 100` either advances to the next step
with `setProgress(0)` (the effect then re-runs with a fresh `startTime`, so
the elapsed time restarts at zero) or, on the last step, stops playback and
calls `onComplete?.()`. -/
def tick (δ : ℚ) (s : PlayerState) : PlayerState :=
  if s.isPlaying = true ∧ s.currentStep < s.instructions.length then
    match s.instructions[s.currentStep]? with
    | none => s
    | some instr =>
      let elapsed := s.elapsedInStep + δ
      let newProgress := min (elapsed / instr.duration * 100) 100
      if 100 ≤ newProgress then
        if s.currentStep < s.instructions.length - 1 then
          { s with currentStep := s.currentStep + 1, progress := 0, elapsedInStep := 0 }
        else
          { s with progress := newProgress, isPlaying := false,
                   completeCount := s.completeCount + 1 }
      else
        { s with progress := newProgress, elapsedInStep := elapsed }
  else s

/-- Interval firings in order: `tick δ₁`, then `tick δ₂`, ... -/
def runTicks (ds : List ℚ) (s : PlayerState) : PlayerState :=
  ds.foldl (fun t δ => tick δ t) s

/-- The play/pause button handler (`SimpleHumanVideo.tsx` lines 318-320,
`RealHumanBodyAnimation.tsx` lines 703-705): `setIsPlaying(!isPlaying)`.
When this resumes playback the progress effect re-runs and takes a fresh
`startTime = Date.now()`, so the elapsed time of the current step restarts at
zero. -/
def handlePlayPause (s : PlayerState) : PlayerState :=
  if s.isPlaying = true then { s with isPlaying := false }
  else { s with isPlaying := true, elapsedInStep := 0 }

/-- The replay handler (`SimpleHumanVideo.tsx` lines 322-327). -/
def handleReplay (s : PlayerState) : PlayerState :=
  { s with currentStep := 0, progress := 0, elapsedInStep := 0, isPlaying := true }

/-- The instructions-reset effect (`RealHumanBodyAnimation.tsx` lines 60-66):
when a new non-empty instructions array arrives, `setCurrentStep(0)`,
`setProgress(0)`, `setIsPlaying(true)`; the progress effect then re-runs with
a fresh `startTime`. An empty array only replaces the prop. -/
def loadInstructions (instrs : List BodyLanguageInstruction) (s : PlayerState) :
    PlayerState :=
  if 0 < instrs.length then
    { instructions := instrs
      currentStep := 0
      elapsedInStep := 0
      progress := 0
      isPlaying := true
      completeCount := s.completeCount }
  else { s with instructions := instrs }

/-! ### Interval-based progress model (`RealHumanBodyAnimation.tsx` lines 69-110)

This effect drives a single global `progress` percentage with a 100 ms
`setInterval`: each firing adds `(progressInterval / (totalDuration * 1000)) * 100`
with `progressInterval = 100`, fires `onComplete` and pins `progress` at 100
once the sum reaches 100, and otherwise maps
`currentTime = (newProgress / 100) * totalDuration` back to a step index by
scanning accumulated durations. The effect never clears the interval and never
changes `isPlaying` when progress reaches 100. -/

structure IntervalState where
  progress : ℚ
  currentStep : ℕ
  completeCount : ℕ
  deriving Repr, DecidableEq

/-- Embeds `instructions.reduce((sum, instruction) => sum + instruction.duration, 0)`
(`RealHumanBodyAnimation.tsx` line 72). -/
def totalDuration (instrs : List BodyLanguageInstruction) : ℚ :=
  (instrs.map (fun i => i.duration)).sum

/-- The step-lookup loop of lines 87-98: accumulate durations and return the
first index `i` with `currentTime ≤ accumulatedTime`; if the loop never breaks
the step is left unchanged. -/
def findStepAux (currentTime : ℚ) :
    List BodyLanguageInstruction → ℚ → ℕ → Option ℕ
  | [], _, _ => none
  | instr :: rest, acc, i =>
    let acc2 := acc + instr.duration
    if currentTime ≤ acc2 then some i
    else findStepAux currentTime rest acc2 (i + 1)

def intervalInit : IntervalState :=
  { progress := 0, currentStep := 0, completeCount := 0 }

/-- One 100 ms firing of the interval progress effect
(`RealHumanBodyAnimation.tsx` lines 76-102). In the completion branch the
code calls `onComplete` and returns 100, leaving the interval armed and
`isPlaying` untouched. -/
def intervalTick (instrs : List BodyLanguageInstruction) (s : IntervalState) :
    IntervalState :=
  let newProgress := s.progress + 100 / (totalDuration instrs * 1000) * 100
  if 100 ≤ newProgress then
    { s with progress := 100, completeCount := s.completeCount + 1 }
  else
    let currentTime := newProgress / 100 * totalDuration instrs
    match findStepAux currentTime instrs 0 0 with
    | some i => { s with progress := newProgress, currentStep := i }
    | none => { s with progress := newProgress }

/-- Runs `n` consecutive firings of the interval. -/
def runIntervalTicks (instrs : List BodyLanguageInstruction) : ℕ → IntervalState
  | 0 => intervalInit
  | n + 1 => intervalTick instrs (runIntervalTicks instrs n)

/-! ### Demo sequences used in the concrete scenarios. -/

def demoOne : List BodyLanguageInstruction := [{ duration := 1 }]

def demoTwo : List BodyLanguageInstruction := [{ duration := 1 }, { duration := 2 }]

/-! ### JSON values and `JSON.parse`

`ws.onmessage` (`RealTimeTranslation.tsx` lines 86-89) runs
`JSON.parse(event.data)` with no surrounding `try`/`catch` and hands the result
to `handleWebSocketMessage`. `Json` models the values `JSON.parse` can
produce; `jsonParse` models `JSON.parse` itself, returning `none` where the
JavaScript builtin throws a `SyntaxError`. Numbers are parsed into exact
rationals; no property below depends on floating-point rounding, JSON's
leading-zero restriction, or surrogate-pair recombination in string escapes. -/

inductive Json where
  | null
  | bool (b : Bool)
  | num (q : ℚ)
  | str (s : String)
  | arr (elems : List Json)
  | obj (fields : List (String × Json))

def openBraceChar : Char := Char.ofNat 123

def closeBraceChar : Char := Char.ofNat 125

def skipWs (cs : List Char) : List Char := cs.dropWhile isJsWhitespace

def isDigitChar (c : Char) : Bool := 48 ≤ c.toNat && c.toNat ≤ 57

def digitVal (c : Char) : ℕ := c.toNat - 48

def hexVal (c : Char) : Option ℕ :=
  if isDigitChar c then some (digitVal c)
  else if 97 ≤ c.toNat && c.toNat ≤ 102 then some (c.toNat - 87)
  else if 65 ≤ c.toNat && c.toNat ≤ 70 then some (c.toNat - 55)
  else none

def unescapeChar : Char → List Char → Option (Char × List Char)
  | '"', rest => some ('"', rest)
  | '\\', rest => some ('\\', rest)
  | '/', rest => some ('/', rest)
  | 'b', rest => some (Char.ofNat 8, rest)
  | 'f', rest => some (Char.ofNat 12, rest)
  | 'n', rest => some (Char.ofNat 10, rest)
  | 'r', rest => some (Char.ofNat 13, rest)
  | 't', rest => some (Char.ofNat 9, rest)
  | 'u', h1 :: h2 :: h3 :: h4 :: rest => do
    let a ← hexVal h1
    let b ← hexVal h2
    let c ← hexVal h3
    let d ← hexVal h4
    some (Char.ofNat (((a * 16 + b) * 16 + c) * 16 + d), rest)
  | _, _ => none

def parseStringBody : ℕ → List Char → Option (List Char × List Char)
  | 0, _ => none
  | _ + 1, [] => none
  | fuel + 1, c :: rest =>
    if c == '"' then some ([], rest)
    else if c == '\\' then
      match rest with
      | [] => none
      | e :: rest2 =>
        match unescapeChar e rest2 with
        | none => none
        | some (u, rest3) =>
          match parseStringBody fuel rest3 with
          | none => none
          | some (s, rest4) => some (u :: s, rest4)
    else
      match parseStringBody fuel rest with
      | none => none
      | some (s, rest2) => some (c :: s, rest2)

def parseDigitsAux (acc : ℕ) (count : ℕ) : List Char → ℕ × ℕ × List Char
  | [] => (acc, count, [])
  | c :: rest =>
    if isDigitChar c then parseDigitsAux (acc * 10 + digitVal c) (count + 1) rest
    else (acc, count, c :: rest)

def parseFrac : List Char → Option (ℚ × List Char)
  | '.' :: cs =>
    let (f, m, cs2) := parseDigitsAux 0 0 cs
    if m = 0 then none else some ((f : ℚ) / (10 : ℚ) ^ m, cs2)
  | cs => some (0, cs)

def parseExp : List Char → Option (ℚ × List Char)
  | [] => some (1, [])
  | c :: cs =>
    if c == 'e' || c == 'E' then
      let (negExp, cs1) :=
        match cs with
        | '+' :: cs1 => (false, cs1)
        | '-' :: cs1 => (true, cs1)
        | _ => (false, cs)
      let (e, m, cs2) := parseDigitsAux 0 0 cs1
      if m = 0 then none
      else some (if negExp then ((10 : ℚ) ^ e)⁻¹ else (10 : ℚ) ^ e, cs2)
    else some (1, c :: cs)

def parseNumber (cs : List Char) : Option (ℚ × List Char) :=
  let (neg, cs0) :=
    match cs with
    | '-' :: rest => (true, rest)
    | _ => (false, cs)
  let (i, n, cs1) := parseDigitsAux 0 0 cs0
  if n = 0 then none
  else
    match parseFrac cs1 with
    | none => none
    | some (f, cs2) =>
      match parseExp cs2 with
      | none => none
      | some (scale, cs3) =>
        let mag := ((i : ℚ) + f) * scale
        some (if neg then -mag else mag, cs3)

def parseArrayTail (pv : List Char → Option (Json × List Char)) :
    ℕ → List Char → Option (List Json × List Char)
  | 0, _ => none
  | fuel + 1, cs =>
    match skipWs cs with
    | ']' :: rest => some ([], rest)
    | ',' :: rest =>
      match pv rest with
      | none => none
      | some (v, rest2) =>
        match parseArrayTail pv fuel rest2 with
        | none => none
        | some (vs, rest3) => some (v :: vs, rest3)
    | _ => none

def parseArrayAll (pv : List Char → Option (Json × List Char)) (fuel : ℕ)
    (cs : List Char) : Option (List Json × List Char) :=
  match skipWs cs with
  | ']' :: rest => some ([], rest)
  | cs2 =>
    match pv cs2 with
    | none => none
    | some (v, rest) =>
      match parseArrayTail pv fuel rest with
      | none => none
      | some (vs, rest2) => some (v :: vs, rest2)

def parseField (pv : List Char → Option (Json × List Char)) (cs : List Char) :
    Option ((String × Json) × List Char) :=
  match skipWs cs with
  | '"' :: rest =>
    match parseStringBody (rest.length + 1) rest with
    | none => none
    | some (k, rest2) =>
      match skipWs rest2 with
      | ':' :: rest3 =>
        match pv rest3 with
        | none => none
        | some (v, rest4) => some ((String.mk k, v), rest4)
      | _ => none
  | _ => none

def parseObjTail (pv : List Char → Option (Json × List Char)) :
    ℕ → List Char → Option (List (String × Json) × List Char)
  | 0, _ => none
  | fuel + 1, cs =>
    match skipWs cs with
    | [] => none
    | c :: rest =>
      if c == closeBraceChar then some ([], rest)
      else if c == ',' then
        match parseField pv rest with
        | none => none
        | some (kv, rest2) =>
          match parseObjTail pv fuel rest2 with
          | none => none
          | some (kvs, rest3) => some (kv :: kvs, rest3)
      else none

def parseObjAll (pv : List Char → Option (Json × List Char)) (fuel : ℕ)
    (cs : List Char) : Option (List (String × Json) × List Char) :=
  match skipWs cs with
  | [] => none
  | c :: rest =>
    if c == closeBraceChar then some ([], rest)
    else
      match parseField pv (c :: rest) with
      | none => none
      | some (kv, rest2) =>
        match parseObjTail pv fuel rest2 with
        | none => none
        | some (kvs, rest3) => some (kv :: kvs, rest3)

def parseValue : ℕ → List Char → Option (Json × List Char)
  | 0, _ => none
  | fuel + 1, cs =>
    match skipWs cs with
    | [] => none
    | 'n' :: 'u' :: 'l' :: 'l' :: rest => some (Json.null, rest)
    | 't' :: 'r' :: 'u' :: 'e' :: rest => some (Json.bool true, rest)
    | 'f' :: 'a' :: 'l' :: 's' :: 'e' :: rest => some (Json.bool false, rest)
    | '"' :: rest =>
      match parseStringBody (rest.length + 1) rest with
      | none => none
      | some (s, rest2) => some (Json.str (String.mk s), rest2)
    | c :: rest =>
      if c == '[' then
        match parseArrayAll (parseValue fuel) fuel rest with
        | none => none
        | some (vs, rest2) => some (Json.arr vs, rest2)
      else if c == openBraceChar then
        match parseObjAll (parseValue fuel) fuel rest with
        | none => none
        | some (kvs, rest2) => some (Json.obj kvs, rest2)
      else
        match parseNumber (c :: rest) with
        | none => none
        | some (q, rest2) => some (Json.num q, rest2)

/-- Embeds `JSON.parse(raw)`: `none` where the builtin throws a `SyntaxError`.
The builtin requires the whole input to be a single JSON value, so trailing
non-whitespace is rejected. -/
def jsonParse (raw : String) : Option Json :=
  match parseValue (raw.length + 1) raw.data with
  | none => none
  | some (j, rest) => if skipWs rest = [] then some j else none

/-! ### Transport model (`RealTimeTranslation.tsx`)

`TransportState` collects the component state that the WebSocket logic reads
and writes: `isConnected`, `isConnecting`, `connectionAttempts`, `messages`,
`currentTranslation`, `error`, `textInput` (the remaining component state —
webcam, recording — is not referenced by any property below). In addition it
tracks the socket objects ever constructed (`sockets`, in creation order;
`wsRef` always points at the most recent one), the frames passed to `ws.send`
while the socket was open (`transmitted`), the number of scheduled 2-second
silent-retry timers (`retryScheduled`), the number of scheduled 1-second
error notices (`errorNoticeScheduled`), and the number of
`console.log('Unknown message type:', ...)` diagnostics (`unknownLogged`).
Message `id` (`Date.now().toString()`) and `timestamp` fields are omitted:
no property below depends on them. -/

inductive SocketStatus where
  | connecting
  | opened
  | closed
  deriving Repr, DecidableEq

inductive MsgKind where
  | translation
  | system
  | user
  deriving Repr, DecidableEq

structure ChatMessage where
  kind : MsgKind
  content : Option Json
  confidence : Option Json

structure TransportState where
  sockets : List SocketStatus
  isConnected : Bool
  isConnecting : Bool
  connectionAttempts : ℕ
  messages : List ChatMessage
  currentTranslation : Option Json
  error : Option Json
  textInput : String
  retryScheduled : ℕ
  errorNoticeScheduled : ℕ
  unknownLogged : ℕ
  transmitted : List Json

/-- Initial component state (`RealTimeTranslation.tsx` lines 36-43):
`isConnected=false`, `isConnecting=true`, `connectionAttempts=0`, empty
message list, empty current translation, no error, empty text input. -/
def initTransport : TransportState :=
  { sockets := []
    isConnected := false
    isConnecting := true
    connectionAttempts := 0
    messages := []
    currentTranslation := some (Json.str "")
    error := none
    textInput := ""
    retryScheduled := 0
    errorNoticeScheduled := 0
    unknownLogged := 0
    transmitted := [] }

/-- Embeds `addMessage` (`RealTimeTranslation.tsx` lines 142-151): appends one
entry to the `messages` transcript. -/
def addMessage (content : Option Json) (kind : MsgKind) (confidence : Option Json)
    (s : TransportState) : TransportState :=
  { s with messages :=
      s.messages ++ [{ kind := kind, content := content, confidence := confidence }] }

/-- Embeds `connectWebSocket(isManualRetry)` (`RealTimeTranslation.tsx` lines
66-84): sets `isConnecting=true`, clears `error`, resets
`connectionAttempts` to 0 only for a manual retry, then constructs a new
`WebSocket` and overwrites `wsRef.current` with it. The previous socket is
not closed and no check of an existing connection is made. -/
def connectWebSocket (isManualRetry : Bool) (s : TransportState) : TransportState :=
  let s1 := { s with isConnecting := true, error := none }
  let s2 := if isManualRetry then { s1 with connectionAttempts := 0 } else s1
  { s2 with sockets := s2.sockets ++ [SocketStatus.connecting] }

/-- Embeds `ws.onopen` (`RealTimeTranslation.tsx` lines 78-84) for socket `i`:
the socket becomes open, `isConnected=true`, `isConnecting=false`,
`connectionAttempts=0`, `error=null`, and a system message is appended. -/
def wsOnOpen (i : ℕ) (s : TransportState) : TransportState :=
  addMessage (some (Json.str "Connected to real-time translation service"))
    MsgKind.system none
    { s with sockets := s.sockets.set i SocketStatus.opened
             isConnected := true
             isConnecting := false
             connectionAttempts := 0
             error := none }

/-- Embeds `ws.onerror` (`RealTimeTranslation.tsx` lines 102-118).
`captured` is the value of `connectionAttempts` that the handler closure
captured when `connectWebSocket` was invoked (React state reads inside the
handler see that render's value, not the latest one). If `captured < 3` the
handler increments the attempts state (a functional `prev => prev + 1`
update, which does use the latest value) and schedules a silent
`connectWebSocket(false)` retry after 2 seconds; otherwise it schedules a
user-visible error notice after 1 second. -/
def wsOnError (captured : ℕ) (s : TransportState) : TransportState :=
  if captured < 3 then
    { s with isConnecting := false
             connectionAttempts := s.connectionAttempts + 1
             retryScheduled := s.retryScheduled + 1 }
  else
    { s with isConnecting := false
             errorNoticeScheduled := s.errorNoticeScheduled + 1 }

/-- Embeds `ws.onclose` (`RealTimeTranslation.tsx` lines 91-100) for socket
`i`, with `captured` the closure's value of `connectionAttempts`: the socket
is closed, `isConnected=false`, `isConnecting=false`, a system message is
appended, and only when `captured >= 3` is the user-visible error set. -/
def wsOnClose (i : ℕ) (captured : ℕ) (s : TransportState) : TransportState :=
  let s1 := addMessage (some (Json.str "Disconnected from translation service"))
    MsgKind.system none
    { s with sockets := s.sockets.set i SocketStatus.closed
             isConnected := false
             isConnecting := false }
  if 3 ≤ captured then
    { s1 with error := some (Json.str
        "Unable to connect to translation service. Please check if the backend server is running.") }
  else s1

/-- Value of `connectionAttempts` seen by every handler of the mount-initiated
connection chain. `connectWebSocket(false)` is first called from the
`useEffect(..., [])` of the first render, whose closure holds
`connectionAttempts = 0`; the 2-second retry timer calls the same
first-render `connectWebSocket`, so every socket in the chain installs
handlers that again capture 0. -/
def mountAttemptsCaptured : ℕ := 0

/-- One connect-then-fail round of the mount-initiated chain: open a socket,
then its `onerror` and `onclose` handlers fire (both reading the mount
closure's `connectionAttempts = 0`). -/
def mountFailureCycle (s : TransportState) : TransportState :=
  let s1 := connectWebSocket false s
  wsOnClose (s1.sockets.length - 1) mountAttemptsCaptured
    (wsOnError mountAttemptsCaptured s1)

/-- Runs `n` consecutive connect-then-fail rounds from the initial state. -/
def runMountFailures : ℕ → TransportState
  | 0 => initTransport
  | n + 1 => mountFailureCycle (runMountFailures n)

/-- Embeds `wsRef.current?.readyState === WebSocket.OPEN`: `wsRef` points at
the most recently constructed socket. -/
def wsReadyStateIsOpen (s : TransportState) : Bool :=
  match s.sockets.getLast? with
  | some SocketStatus.opened => true
  | _ => false

/-- Embeds the frame `JSON.stringify({type: 'text_input', text: ...})`
(`RealTimeTranslation.tsx` lines 189-192). -/
def textInputFrame (text : String) : Json :=
  Json.obj [("type", Json.str "text_input"), ("text", Json.str text)]

/-- Embeds `sendTextInput(text)` (`RealTimeTranslation.tsx` lines 187-196):
only when the trimmed text is non-empty and the current socket's
`readyState` is `OPEN` does it transmit the frame, append a user transcript
entry and clear the input; in every other case the function body does
nothing at all. -/
def sendTextInput (text : String) (s : TransportState) : TransportState :=
  let trimmed := String.mk (trimChars text.data)
  if trimmed ≠ "" ∧ wsReadyStateIsOpen s = true then
    { (addMessage (some (Json.str trimmed)) MsgKind.user none
        { s with transmitted := s.transmitted ++ [textInputFrame trimmed] })
      with textInput := "" }
  else s

/-- Count of sockets that are not closed (connecting or open). -/
def liveSockets (s : TransportState) : ℕ :=
  (s.sockets.filter (fun st => !(st == SocketStatus.closed))).length

/-! ### Inbound message dispatch (`RealTimeTranslation.tsx` lines 86-89 and 125-140) -/

/-- Decimal rendering of a JSON number for string interpolation. Integers are
rendered exactly; for non-integral values the JavaScript decimal rendering is
approximated by `num/den` (no property below depends on this rendering). -/
def jsNumberToString (q : ℚ) : String :=
  if q.den = 1 then toString q.num else toString q.num ++ "/" ++ toString q.den

mutual

/-- Embeds JavaScript string conversion `String(x)` as used by the template
literal in the `gesture_detected` branch. -/
def jsDisplay : Json → String
  | Json.null => "null"
  | Json.bool true => "true"
  | Json.bool false => "false"
  | Json.num q => jsNumberToString q
  | Json.str s => s
  | Json.arr elems => String.intercalate "," (jsDisplayElems elems)
  | Json.obj _ => "[object Object]"

/-- Array elements under `String(...)`: `null` renders as the empty string. -/
def jsDisplayElems : List Json → List String
  | [] => []
  | Json.null :: rest => "" :: jsDisplayElems rest
  | j :: rest => jsDisplay j :: jsDisplayElems rest

end

/-- Embeds JavaScript string conversion of a possibly-undefined value. -/
def jsDisplayOpt : Option Json → String
  | none => "undefined"
  | some j => jsDisplay j

/-- Embeds JavaScript property access `j[key]` on a parsed JSON value:
defined only for objects (with the last duplicate key winning, as in
`JSON.parse`); on any non-object the access yields `undefined` (`none`).
Access on `null` throws and is handled separately in
`handleWebSocketMessage`. -/
def jsonField (j : Json) (key : String) : Option Json :=
  match j with
  | Json.obj kvs => (kvs.reverse.find? (fun kv => kv.1 == key)).map (fun kv => kv.2)
  | _ => none

/-- Value of `data.type` as compared by the `switch`: a `case` label matches
only if `data.type` is exactly that string (strict equality), so a missing or
non-string `type` field falls to the `default` branch. -/
def msgTypeTag (j : Json) : Option String :=
  match jsonField j "type" with
  | some (Json.str t) => some t
  | _ => none

/-- Crashes that can escape the `ws.onmessage` handler, which has no
`try`/`catch`. -/
inductive JsCrash where
  | jsonParseSyntaxError
  | nullTypeAccess
  deriving Repr, DecidableEq

/-- Embeds `handleWebSocketMessage(data)` (`RealTimeTranslation.tsx` lines
125-140). Reading `data.type` on the JSON value `null` throws a `TypeError`;
for every other parsed value the `switch` dispatches: `translation` sets the
current translation and appends one transcript entry, `gesture_detected`
appends one system transcript entry, `error` sets the user-visible error
text, and anything else only logs an unknown-message diagnostic. -/
def handleWebSocketMessage (j : Json) (s : TransportState) :
    Except JsCrash TransportState :=
  match j with
  | Json.null => Except.error JsCrash.nullTypeAccess
  | _ =>
    Except.ok <|
      if msgTypeTag j = some "translation" then
        addMessage (jsonField j "text") MsgKind.translation (jsonField j "confidence")
          { s with currentTranslation := jsonField j "text" }
      else if msgTypeTag j = some "gesture_detected" then
        addMessage
          (some (Json.str ("Gesture detected: " ++ jsDisplayOpt (jsonField j "gesture"))))
          MsgKind.system none s
      else if msgTypeTag j = some "error" then
        { s with error := jsonField j "message" }
      else
        { s with unknownLogged := s.unknownLogged + 1 }

/-- Embeds `ws.onmessage` (`RealTimeTranslation.tsx` lines 86-89):
`JSON.parse(event.data)` with no exception handling, then dispatch. -/
def wsOnMessage (raw : String) (s : TransportState) : Except JsCrash TransportState :=
  match jsonParse raw with
  | none => Except.error JsCrash.jsonParseSyntaxError
  | some j => handleWebSocketMessage j s

/-- Tags with a dedicated `case` in the `switch`. -/
def recognizedTag (j : Json) : Bool :=
  msgTypeTag j == some "translation" || msgTypeTag j == some "gesture_detected" ||
    msgTypeTag j == some "error"

/-! ### Gesture animation lookup (`SimpleHumanVideo.tsx` lines 34-126, 222-270) -/

structure GestureAnim where
  animation : String
  meaning : String
  color : String
  emoji : String
  deriving Repr, DecidableEq

/-- Embeds the `gestureAnimations` record (`SimpleHumanVideo.tsx` lines
34-126), in insertion order (the order `Object.entries` yields). -/
def gestureAnimations : List (String × GestureAnim) :=
  [ ("Point to your chest with index finger, then point forward",
      { animation := "pointing", meaning := "I want to go there",
        color := "#2196f3", emoji := "👆" }),
    ("Hold both hands palms up, then bring them toward your chest",
      { animation := "palms_up", meaning := "I need help",
        color := "#ff9800", emoji := "🤲" }),
    ("Wave hand from side to side",
      { animation := "waving", meaning := "Hello/Goodbye",
        color := "#9c27b0", emoji := "👋" }),
    ("Make writing motion with hand, then point to building location",
      { animation := "writing", meaning := "School/Study",
        color := "#607d8b", emoji := "✍️" }),
    ("Place hand over heart, then nod head",
      { animation := "heart", meaning := "Thank you",
        color := "#e91e63", emoji := "💝" }),
    ("Raise hand above head, then point to yourself",
      { animation := "help", meaning := "I need help",
        color := "#f44336", emoji := "🙋" }),
    ("Nod head up and down",
      { animation := "nodding", meaning := "Yes",
        color := "#4caf50", emoji := "👍" }),
    ("Shake head side to side",
      { animation := "shaking", meaning := "No",
        color := "#f44336", emoji := "👎" }),
    ("Point to your chest, then point forward in the direction you want to go",
      { animation := "pointing", meaning := "I want to go there",
        color := "#2196f3", emoji := "👆" }),
    ("Hold both hands palms up toward the person",
      { animation := "palms_up", meaning := "I need help",
        color := "#ff9800", emoji := "🤲" }),
    ("Point to your chest, then gesture to explain what you want",
      { animation := "pointing", meaning := "I want this",
        color := "#2196f3", emoji := "👆" }),
    ("Show determined expression",
      { animation := "determined", meaning := "I am determined",
        color := "#4caf50", emoji := "💪" }),
    ("Show concerned or urgent expression",
      { animation := "urgent", meaning := "I need help urgently",
        color := "#f44336", emoji := "😰" }),
    ("Show your emotion about the situation",
      { animation := "heart", meaning := "I feel this way",
        color := "#e91e63", emoji := "💝" }) ]

/-- Fallback record returned by `findBestAnimation` when nothing matches
(`SimpleHumanVideo.tsx` lines 264-269). -/
def defaultGestureAnim : GestureAnim :=
  { animation := "default", meaning := "I understand", color := "#666", emoji := "🤔" }

/-- Keyword conditions checked for one table entry inside the partial-match
loop (`SimpleHumanVideo.tsx` lines 231-262): `desc` is the lowercased
description, `keyLower` the lowercased key; the loop returns the entry's
value at the first entry for which any of these conditions holds. -/
def keywordHit (desc keyLower : List Char) : Bool :=
  (hasSub desc "point".data && hasSub keyLower "point".data) ||
  (hasSub desc "wave".data && hasSub keyLower "wave".data) ||
  (hasSub desc "nod".data && hasSub keyLower "nod".data) ||
  (hasSub desc "shake".data && hasSub keyLower "shake".data) ||
  (hasSub desc "heart".data && hasSub keyLower "heart".data) ||
  (hasSub desc "help".data && hasSub keyLower "help".data) ||
  (hasSub desc "palms".data && hasSub keyLower "palms".data) ||
  (hasSub desc "emotion".data || hasSub desc "expression".data) ||
  (hasSub desc "gesture".data && hasSub keyLower "point".data)

/-- Values the bracket read `gestureAnimations[description]` can produce and
the function can return: an animation record held under an own key, or a
member inherited from `Object.prototype` — `gestureAnimations` is a plain
object literal, so indexing it with a name like "toString" yields the
inherited (truthy) member, not `undefined`. -/
inductive GestureLookup where
  | record (a : GestureAnim)
  | inheritedMember (name : String)
  deriving Repr, DecidableEq

/-- Property names a plain object literal inherits from `Object.prototype`
(including the legacy accessor properties); each of them indexes to a truthy
value (a function, or the prototype object itself for `__proto__`). -/
def objectPrototypeMembers : List String :=
  ["constructor", "toString", "toLocaleString", "valueOf", "hasOwnProperty",
   "isPrototypeOf", "propertyIsEnumerable", "__proto__", "__defineGetter__",
   "__defineSetter__", "__lookupGetter__", "__lookupSetter__"]

/-- Embeds the bracket read `gestureAnimations[description]`: an own key
yields its record; otherwise a name of a truthy `Object.prototype` member
yields that inherited member; every other name yields `undefined` (`none`,
falsy). -/
def gestureIndex (description : String) : Option GestureLookup :=
  match (gestureAnimations.find? (fun kv => kv.1 == description)).map (fun kv => kv.2) with
  | some v => some (GestureLookup.record v)
  | none =>
    if description ∈ objectPrototypeMembers then
      some (GestureLookup.inheritedMember description)
    else none

/-- Embeds `findBestAnimation(description)` (`SimpleHumanVideo.tsx` lines
222-270): the truthy test `if (gestureAnimations[description])` first — it
passes both for own keys and for inherited `Object.prototype` members, and
whatever the bracket read produced is returned — then the keyword loop over
the entries in order, then the built-in default record. -/
def findBestAnimation (description : String) : GestureLookup :=
  let desc := lowerStr description
  match gestureIndex description with
  | some v => v
  | none =>
    match gestureAnimations.find? (fun kv => keywordHit desc (lowerStr kv.1)) with
    | some kv => GestureLookup.record kv.2
    | none => GestureLookup.record defaultGestureAnim

/-! ### Concrete values used by the scenario theorems and witnesses -/

def sendDemoState : TransportState := { runMountFailures 1 with textInput := "hello" }

def demoErrorMsg : Json :=
  Json.obj [("type", Json.str "error"), ("message", Json.str "boom")]

def demoTranslationMsg : Json :=
  Json.obj [("type", Json.str "translation"), ("text", Json.str "hi"),
    ("confidence", Json.num (9/10))]

def demoGestureMsg : Json :=
  Json.obj [("type", Json.str "gesture_detected"), ("gesture", Json.str "wave")]

def demoUnknownMsg : Json := Json.obj [("type", Json.str "bogus")]

def demoTranslationResult : TransportState :=
  (handleWebSocketMessage demoTranslationMsg initTransport).toOption.getD initTransport

def demoGestureResult : TransportState :=
  (handleWebSocketMessage demoGestureMsg initTransport).toOption.getD initTransport

/-! ### Theorems -/

/-- Helper for C4: while paused the interval is cleared, so tick firings do
not change the state. -/
theorem runTicks_paused_noop (ds : List ℚ) (s : PlayerState)
    (h : s.isPlaying = false) : runTicks ds s = s := by
  induction ds with
  | nil => rfl
  | cons d ds ih =>
    have ht : tick d s = s := by simp [tick, h]
    show runTicks ds (tick d s) = s
    rw [ht, ih]

/-- Claim C1: for every non-empty instruction sequence, ticks summing to the
total duration drive the status to Complete exactly once and `onComplete`
fires exactly once per play-through, never again on a subsequent tick. The
interval progress effect of `RealHumanBodyAnimation.tsx` (lines 69-110)
violates this: for the single-instruction sequence of duration 1 s, the tenth
100 ms firing reaches progress 100 and calls `onComplete`, and the eleventh
firing calls `onComplete` again — the completion branch neither clears the
interval nor stops playback, so the callback fires on every subsequent tick. -/
theorem intervalProgressEffect_refires_onComplete :
    (runIntervalTicks demoOne 10).progress = 100 ∧
    (runIntervalTicks demoOne 10).completeCount = 1 ∧
    (runIntervalTicks demoOne 11).completeCount = 2 := by
  norm_num [runIntervalTicks, intervalTick, intervalInit, totalDuration, demoOne,
    findStepAux]

/-- Claim C2: the claim says that after 3 consecutive failures the client is
terminally Failed with exactly one user-visible notice, earlier failures
being silent retries. The code never reaches that point: every handler of
the mount-initiated chain reads the mount closure's `connectionAttempts = 0`,
so after any number `n` of consecutive failures no error has been set and no
notice scheduled, while another silent 2-second retry has been scheduled each
time (and the real attempts state, updated functionally, has reached `n`). -/
theorem mountRetryChain_never_fails_never_notifies :
    ∀ n : ℕ,
      (runMountFailures n).error = none ∧
      (runMountFailures n).errorNoticeScheduled = 0 ∧
      (runMountFailures n).retryScheduled = n ∧
      (runMountFailures n).connectionAttempts = n := by
  intro n
  induction n with
  | zero => exact ⟨rfl, rfl, rfl, rfl⟩
  | succ n ih =>
    obtain ⟨h1, h2, h3, h4⟩ := ih
    simp [runMountFailures, mountFailureCycle, connectWebSocket, wsOnError,
      wsOnClose, addMessage, mountAttemptsCaptured, h1, h2, h3, h4]

/-- Claim C3 counterexample: on the sequence `[duration 1, duration 2]`,
`tick(0.5)` then `tick(0.6)` leaves the per-step progress at 0, not at the
claimed ≈5 % of step 1: the 0.1 s overflow past step 0 is discarded
(`setProgress(0)` and a fresh `startTime`), not carried. -/
theorem tick_overflow_discarded_cex :
    (runTicks [1/2, 6/10] (initialPlayer demoTwo)).currentStep = 1 ∧
    (runTicks [1/2, 6/10] (initialPlayer demoTwo)).progress = 0 ∧
    (runTicks [1/2, 6/10] (initialPlayer demoTwo)).progress ≠ 5 := by
  norm_num [runTicks, tick, initialPlayer, demoTwo]

/-- Claim C3 as amended: on `[duration 1, duration 2]`, `tick(0.5)` yields
step 0 at 50 %; `tick(0.6)` yields step 1 at 0 % — the overflow past step 0
is discarded, the step timer restarting from zero; `tick(2.0)` completes with
progress pinned at 100 and `onComplete` fired once, and a further tick does
not fire it again. -/
theorem twoStep_scenario_overflow_dropped :
    (runTicks [1/2] (initialPlayer demoTwo)).currentStep = 0 ∧
    (runTicks [1/2] (initialPlayer demoTwo)).progress = 50 ∧
    runTicks [1/2, 6/10] (initialPlayer demoTwo) =
      { instructions := demoTwo, currentStep := 1, elapsedInStep := 0, progress := 0,
        isPlaying := true, completeCount := 0 } ∧
    (runTicks [1/2, 6/10, 2] (initialPlayer demoTwo)).progress = 100 ∧
    (runTicks [1/2, 6/10, 2] (initialPlayer demoTwo)).isPlaying = false ∧
    (runTicks [1/2, 6/10, 2] (initialPlayer demoTwo)).completeCount = 1 ∧
    (runTicks [1/2, 6/10, 2, 1] (initialPlayer demoTwo)).completeCount = 1 := by
  norm_num [runTicks, tick, initialPlayer, demoTwo]

/-- Claim C4 counterexample: pausing is not time-neutral. On the
single-instruction sequence of duration 1 s, ticking 0.6 s, pausing,
resuming, and ticking another 0.6 s (1.2 s of playing time in total) leaves
playback incomplete at 60 %, while 1.2 s of uninterrupted ticking completes
it: resuming restarts the current step's elapsed time from zero. -/
theorem pause_not_time_neutral_cex :
    (runTicks [6/10]
      (handlePlayPause (handlePlayPause
        (runTicks [6/10] (initialPlayer demoOne))))).completeCount = 0 ∧
    (runTicks [6/10]
      (handlePlayPause (handlePlayPause
        (runTicks [6/10] (initialPlayer demoOne))))).progress = 60 ∧
    (runTicks [6/10, 6/10] (initialPlayer demoOne)).completeCount = 1 := by
  norm_num [runTicks, tick, handlePlayPause, initialPlayer, demoOne]

/-- Claim C4 as amended: pause followed by any number of (no-op) ticks
followed by resume is neutral only when the pause happened with zero elapsed
time in the current step; in that case the subsequent ticks behave exactly as
if no pause had occurred. (In general, resuming resets the step's elapsed
time to zero, per the counterexample.) -/
theorem pause_resume_neutral_at_step_start (s : PlayerState) (ds1 ds2 : List ℚ)
    (h1 : s.isPlaying = true) (h2 : s.elapsedInStep = 0) :
    runTicks ds2 (handlePlayPause (runTicks ds1 (handlePlayPause s))) =
      runTicks ds2 s := by
  obtain ⟨ins, cs, el, pr, ip, cc⟩ := s
  simp only at h1 h2
  subst h1
  subst h2
  have hp : handlePlayPause (PlayerState.mk ins cs 0 pr true cc) =
      PlayerState.mk ins cs 0 pr false cc := by simp [handlePlayPause]
  rw [hp, runTicks_paused_noop ds1 (PlayerState.mk ins cs 0 pr false cc) rfl]
  have hr : handlePlayPause (PlayerState.mk ins cs 0 pr false cc) =
      PlayerState.mk ins cs 0 pr true cc := by simp [handlePlayPause]
  rw [hr]

/-- Witness for C4's amended theorem at a concrete input. -/
theorem pause_resume_neutral_at_step_start_witness :
    (initialPlayer demoOne).isPlaying = true ∧
    (initialPlayer demoOne).elapsedInStep = 0 ∧
    runTicks [1/2]
        (handlePlayPause (runTicks [3/10] (handlePlayPause (initialPlayer demoOne)))) =
      runTicks [1/2] (initialPlayer demoOne) :=
  ⟨rfl, rfl,
    pause_resume_neutral_at_step_start (initialPlayer demoOne) [3/10] [1/2] rfl rfl⟩

/-- Claim C5 counterexample: after the first mount-chain failure the
component is neither connected nor connecting (so the manual Reconnect button
is visible and enabled) and a 2-second retry timer is pending; a manual
`connectWebSocket(true)` followed by the timer's `connectWebSocket(false)`
leaves two simultaneously live (non-closed) sockets — `connect` has no
already-connecting/open guard. -/
theorem reconnect_double_socket_cex :
    (runMountFailures 1).isConnected = false ∧
    (runMountFailures 1).isConnecting = false ∧
    (runMountFailures 1).retryScheduled = 1 ∧
    liveSockets (connectWebSocket false (connectWebSocket true (runMountFailures 1))) = 2 :=
  ⟨rfl, rfl, rfl, rfl⟩

/-- Claim C5 as amended: `connectWebSocket` is never a no-op — whatever the
current state (including Connecting or Open), it constructs a fresh socket,
appends it to the live set without closing any previous socket, and sets
`isConnecting`; duplicate-socket avoidance rests only on UI gating of the
Reconnect button, which the pending-retry path bypasses. -/
theorem connectWebSocket_always_opens_new_socket (b : Bool) (s : TransportState) :
    (connectWebSocket b s).sockets = s.sockets ++ [SocketStatus.connecting] ∧
    (connectWebSocket b s).isConnecting = true := by
  cases b <;> simp [connectWebSocket]

/-- Claim C6 counterexample: after a non-empty instruction list is loaded the
status is Playing (not Idle), and time advances on the next tick although
`play()` was never called: loading auto-starts playback. -/
theorem load_autoplay_cex :
    (loadInstructions demoTwo (initialPlayer [])).isPlaying = true ∧
    (tick (1/2) (loadInstructions demoTwo (initialPlayer []))).elapsedInStep = 1/2 ∧
    (tick (1/2) (loadInstructions demoTwo (initialPlayer []))).progress = 50 := by
  norm_num [loadInstructions, tick, initialPlayer, demoTwo]

/-- Claim C6 as amended: loading a valid non-empty sequence resets
`currentStep`, `progress` and the step's elapsed time to 0, but sets the
status to Playing — playback begins immediately, with no separate `play()`
call. -/
theorem load_resets_and_autoplays (instrs : List BodyLanguageInstruction)
    (s : PlayerState) (h : instrs ≠ []) :
    (loadInstructions instrs s).currentStep = 0 ∧
    (loadInstructions instrs s).progress = 0 ∧
    (loadInstructions instrs s).elapsedInStep = 0 ∧
    (loadInstructions instrs s).isPlaying = true := by
  have hl : 0 < instrs.length := List.length_pos.mpr h
  simp [loadInstructions, hl]

/-- Witness for C6's amended theorem at a concrete input. -/
theorem load_resets_and_autoplays_witness :
    demoTwo ≠ [] ∧
    ((loadInstructions demoTwo (initialPlayer [])).currentStep = 0 ∧
      (loadInstructions demoTwo (initialPlayer [])).progress = 0 ∧
      (loadInstructions demoTwo (initialPlayer [])).elapsedInStep = 0 ∧
      (loadInstructions demoTwo (initialPlayer [])).isPlaying = true) :=
  ⟨by simp [demoTwo], load_resets_and_autoplays demoTwo (initialPlayer []) (by simp [demoTwo])⟩

/-- Claim C7 counterexample: with the socket closed and non-blank input,
`sendTextInput` leaves the component state completely unchanged — the
message is neither buffered nor transmitted, no error is raised, the input
keeps its text — and nothing is delivered when a socket later opens. This is
exactly the implicit silent discard the claim rules out. -/
theorem send_while_closed_silent_noop_cex :
    wsReadyStateIsOpen sendDemoState = false ∧
    sendDemoState.error = none ∧
    sendTextInput "hello" sendDemoState = sendDemoState ∧
    (wsOnOpen 0 (sendTextInput "hello" sendDemoState)).transmitted = [] :=
  ⟨rfl, rfl, rfl, rfl⟩

/-- Claim C7 as amended: whenever the current socket's `readyState` is not
`OPEN`, `sendTextInput` is an implicit silent no-op — the state is unchanged
(nothing transmitted, nothing queued, no error, input left in place) — and a
later successful open transmits nothing that was sent while closed. -/
theorem sendTextInput_not_open_is_noop (text : String) (i : ℕ) (s : TransportState)
    (h : wsReadyStateIsOpen s = false) :
    sendTextInput text s = s ∧ (wsOnOpen i s).transmitted = s.transmitted := by
  constructor
  · simp [sendTextInput, h]
  · simp [wsOnOpen, addMessage]

/-- Witness for C7's amended theorem at a concrete input. -/
theorem sendTextInput_not_open_is_noop_witness :
    wsReadyStateIsOpen sendDemoState = false ∧
    (sendTextInput "hi" sendDemoState = sendDemoState ∧
      (wsOnOpen 0 sendDemoState).transmitted = sendDemoState.transmitted) :=
  ⟨rfl, sendTextInput_not_open_is_noop "hi" 0 sendDemoState rfl⟩

/-- Claim C8 counterexample: the inbound handler is not total over raw
payloads. `ws.onmessage` applies `JSON.parse` with no exception handling,
so a frame that is not well-formed JSON throws out of the dispatch loop; the
well-formed frame `null` also throws, on the `data.type` access. -/
theorem wsOnMessage_crashes_on_malformed_cex :
    wsOnMessage "hello" initTransport = Except.error JsCrash.jsonParseSyntaxError ∧
    wsOnMessage "null" initTransport = Except.error JsCrash.nullTypeAccess :=
  ⟨rfl, rfl⟩

/-- Claim C8 as amended: over parsed payloads (other than the literal `null`)
dispatch is total — any payload without a recognized `type` tag produces only
the unknown-message diagnostic and no other state change; but the handler is
not total over raw frames, since malformed JSON throws out of `onmessage`
(per the counterexample). -/
theorem unknown_tag_only_logs_diagnostic (j : Json) (s : TransportState)
    (hn : j ≠ Json.null) (hr : recognizedTag j = false) :
    handleWebSocketMessage j s =
      Except.ok { s with unknownLogged := s.unknownLogged + 1 } := by
  simp only [recognizedTag, Bool.or_eq_false_iff, beq_eq_false_iff_ne] at hr
  obtain ⟨⟨h1, h2⟩, h3⟩ := hr
  cases j with
  | null => exact absurd rfl hn
  | bool b => simp [handleWebSocketMessage, h1, h2, h3]
  | num q => simp [handleWebSocketMessage, h1, h2, h3]
  | str t => simp [handleWebSocketMessage, h1, h2, h3]
  | arr es => simp [handleWebSocketMessage, h1, h2, h3]
  | obj kvs => simp [handleWebSocketMessage, h1, h2, h3]

/-- Witness for C8's amended theorem at a concrete input. -/
theorem unknown_tag_only_logs_diagnostic_witness :
    demoUnknownMsg ≠ Json.null ∧ recognizedTag demoUnknownMsg = false ∧
    handleWebSocketMessage demoUnknownMsg initTransport =
      Except.ok { initTransport with unknownLogged := initTransport.unknownLogged + 1 } :=
  ⟨fun h => Json.noConfusion h, rfl,
    unknown_tag_only_logs_diagnostic demoUnknownMsg initTransport
      (fun h => Json.noConfusion h) rfl⟩

/-- Claim C9: handling an `error` message changes only the user-visible
error text (the transcript and current translation are untouched — the
result state is the input state with only `error` replaced); handling a
`translation` message appends exactly one transcript entry and sets the
current translation; handling a `gesture_detected` message appends exactly
one transcript entry. -/
theorem handleWebSocketMessage_frame_effects :
    (∀ (j : Json) (s : TransportState), msgTypeTag j = some "error" →
        handleWebSocketMessage j s = Except.ok { s with error := jsonField j "message" }) ∧
    (∀ (j : Json) (s s' : TransportState), msgTypeTag j = some "translation" →
        handleWebSocketMessage j s = Except.ok s' →
        s'.messages.length = s.messages.length + 1 ∧
        s'.currentTranslation = jsonField j "text") ∧
    (∀ (j : Json) (s s' : TransportState), msgTypeTag j = some "gesture_detected" →
        handleWebSocketMessage j s = Except.ok s' →
        s'.messages.length = s.messages.length + 1) := by
  refine ⟨?_, ?_, ?_⟩
  · intro j s h
    cases j with
    | null => simp [msgTypeTag, jsonField] at h
    | bool b => simp [handleWebSocketMessage, h]
    | num q => simp [handleWebSocketMessage, h]
    | str t => simp [handleWebSocketMessage, h]
    | arr es => simp [handleWebSocketMessage, h]
    | obj kvs => simp [handleWebSocketMessage, h]
  · intro j s s' h heq
    cases j with
    | null => simp [msgTypeTag, jsonField] at h
    | bool b =>
      simp [handleWebSocketMessage, h, addMessage] at heq
      subst heq
      simp [addMessage]
    | num q =>
      simp [handleWebSocketMessage, h, addMessage] at heq
      subst heq
      simp [addMessage]
    | str t =>
      simp [handleWebSocketMessage, h, addMessage] at heq
      subst heq
      simp [addMessage]
    | arr es =>
      simp [handleWebSocketMessage, h, addMessage] at heq
      subst heq
      simp [addMessage]
    | obj kvs =>
      simp [handleWebSocketMessage, h, addMessage] at heq
      subst heq
      simp [addMessage]
  · intro j s s' h heq
    cases j with
    | null => simp [msgTypeTag, jsonField] at h
    | bool b =>
      simp [handleWebSocketMessage, h, addMessage] at heq
      subst heq
      simp [addMessage]
    | num q =>
      simp [handleWebSocketMessage, h, addMessage] at heq
      subst heq
      simp [addMessage]
    | str t =>
      simp [handleWebSocketMessage, h, addMessage] at heq
      subst heq
      simp [addMessage]
    | arr es =>
      simp [handleWebSocketMessage, h, addMessage] at heq
      subst heq
      simp [addMessage]
    | obj kvs =>
      simp [handleWebSocketMessage, h, addMessage] at heq
      subst heq
      simp [addMessage]

/-- Witness for C9's theorem at concrete inputs. -/
theorem handleWebSocketMessage_frame_effects_witness :
    (handleWebSocketMessage demoErrorMsg initTransport =
      Except.ok { initTransport with error := jsonField demoErrorMsg "message" }) ∧
    (demoTranslationResult.messages.length = initTransport.messages.length + 1 ∧
      demoTranslationResult.currentTranslation = jsonField demoTranslationMsg "text") ∧
    demoGestureResult.messages.length = initTransport.messages.length + 1 :=
  ⟨handleWebSocketMessage_frame_effects.1 demoErrorMsg initTransport rfl,
    handleWebSocketMessage_frame_effects.2.1 demoTranslationMsg initTransport
      demoTranslationResult rfl rfl,
    handleWebSocketMessage_frame_effects.2.2 demoGestureMsg initTransport
      demoGestureResult rfl rfl⟩

/-- Claim C10 counterexample: `findBestAnimation` is not total as a map into
animation records. The description "toString" is no own key of the table and
hits no keyword condition, so under the claim it should yield the default
record; instead the truthy check `if (gestureAnimations[description])`
passes on the member inherited from `Object.prototype` and the function
returns that inherited function — not an animation record, and not the
default. -/
theorem findBestAnimation_prototype_leak_cex :
    gestureAnimations.find? (fun kv => kv.1 == "toString") = none ∧
    gestureAnimations.find?
      (fun kv => keywordHit (lowerStr "toString") (lowerStr kv.1)) = none ∧
    findBestAnimation "toString" = GestureLookup.inheritedMember "toString" ∧
    findBestAnimation "toString" ≠ GestureLookup.record defaultGestureAnim := by
  refine ⟨by decide, by decide, rfl, by decide⟩

/-- Claim C10 as amended: for every description that is neither an own key of
the gesture table, nor the name of an inherited `Object.prototype` member,
nor a keyword match — including the empty string used when no current
instruction exists — `findBestAnimation` returns the built-in default record
(`animation "default"`, meaning "I understand"); descriptions naming a truthy
inherited member escape the fallback and return that member instead, per the
counterexample. -/
theorem findBestAnimation_default_unless_prototype_member (d : String)
    (h1 : ∀ kv ∈ gestureAnimations, kv.1 ≠ d)
    (h0 : d ∉ objectPrototypeMembers)
    (h2 : ∀ kv ∈ gestureAnimations, keywordHit (lowerStr d) (lowerStr kv.1) = false) :
    findBestAnimation d = GestureLookup.record defaultGestureAnim := by
  have e1 : gestureAnimations.find? (fun kv => kv.1 == d) = none :=
    List.find?_eq_none.mpr (fun kv hkv => by simp [h1 kv hkv])
  have e2 : gestureAnimations.find?
      (fun kv => keywordHit (lowerStr d) (lowerStr kv.1)) = none :=
    List.find?_eq_none.mpr (fun kv hkv => by simp [h2 kv hkv])
  simp [findBestAnimation, gestureIndex, e1, e2, h0]

/-- Witness for C10's amended theorem at the empty description (the value
used when no current instruction exists). -/
theorem findBestAnimation_default_unless_prototype_member_witness :
    (∀ kv ∈ gestureAnimations, kv.1 ≠ "") ∧
    "" ∉ objectPrototypeMembers ∧
    (∀ kv ∈ gestureAnimations, keywordHit (lowerStr "") (lowerStr kv.1) = false) ∧
    findBestAnimation "" = GestureLookup.record defaultGestureAnim :=
  ⟨by decide, by decide, by decide,
    findBestAnimation_default_unless_prototype_member "" (by decide) (by decide) (by decide)⟩

/-- Witness for C2's theorem at a concrete failure count. -/
theorem mountRetryChain_never_fails_never_notifies_witness :
    (runMountFailures 4).error = none ∧
    (runMountFailures 4).errorNoticeScheduled = 0 ∧
    (runMountFailures 4).retryScheduled = 4 ∧
    (runMountFailures 4).connectionAttempts = 4 :=
  mountRetryChain_never_fails_never_notifies 4

/-- Witness for C5's amended theorem at a concrete state. -/
theorem connectWebSocket_always_opens_new_socket_witness :
    (connectWebSocket true (runMountFailures 1)).sockets =
      (runMountFailures 1).sockets ++ [SocketStatus.connecting] ∧
    (connectWebSocket true (runMountFailures 1)).isConnecting = true :=
  connectWebSocket_always_opens_new_socket true (runMountFailures 1)
